import Mathlib

set_option maxHeartbeats 1000000

/-!
Verification development for the ExcelToPpt repository.

The repository reads worksheets of an Excel workbook into pandas
DataFrames, locates ad-hoc tables inside them by scanning for sentinel
strings, slices the trailing four data columns, and writes the results
into placeholder shapes of a PowerPoint template (Main.py), with five
standalone scripts (DataFromSheetForSlide6..10.py) restating the same
extraction logic.

Shallow embedding conventions:
- a worksheet cell is either a string or an integer (`Cell`);
- a pandas DataFrame with the default RangeIndex is a list of column
  labels plus a list of rows (`DataFrame`); columns are addressed
  positionally, which coincides with pandas label addressing whenever the
  column labels are distinct (the situation all of this code assumes);
- Python `str(x)` is `Cell.pyStr`, Python `needle in hay` on strings is
  `pyIn`, Python `s.lower()` is `pyLower`, Python `s.strip()` is
  `pyStrip`;
- `df.iloc[a:b]` / `df.loc[a:b-1]` row slices (which clamp) are
  `sliceRows`;
- Python functions that can raise are modelled with `Option`/`Except`,
  `none`/`.error` standing for the raised exception.
-/

/-- A worksheet cell: either text or an integer number. -/
inductive Cell where
  | str : String → Cell
  | num : Int → Cell
deriving DecidableEq

/-- Python `str()` of a cell value. -/
def Cell.pyStr : Cell → String
  | Cell.str s => s
  | Cell.num n => toString n

/-- Python `s.lower()` (ASCII lowering, which covers every string this
program compares). -/
def pyLower (s : String) : String := String.mk (s.data.map Char.toLower)

/-- Python `s.strip()`: drop leading and trailing whitespace. -/
def pyStrip (s : String) : String :=
  String.mk (((s.data.dropWhile Char.isWhitespace).reverse.dropWhile Char.isWhitespace).reverse)

/-- Decimal value of a non-empty all-digit character list. -/
def digitsVal (l : List Char) : Option Nat :=
  if l.isEmpty then none
  else l.foldl
    (fun acc c => acc.bind (fun n => if c.isDigit then some (n * 10 + (c.toNat - 48)) else none))
    (some 0)

/-- Python `int()` applied to a string: optional sign and decimal
digits, surrounding whitespace allowed, anything else a ValueError. -/
def pyToInt? (s : String) : Option Int :=
  match (pyStrip s).data with
  | [] => none
  | c :: rest =>
    if c == '-' then (digitsVal rest).map (fun n => -(n : Int))
    else if c == '+' then (digitsVal rest).map (fun n => (n : Int))
    else (digitsVal (c :: rest)).map (fun n => (n : Int))

/-- Whether the second list starts with the first one. -/
def startsWithChars : List Char → List Char → Bool
  | [], _ => true
  | _ :: _, [] => false
  | p :: ps, c :: cs => p == c && startsWithChars ps cs

/-- Whether the pattern occurs somewhere in the list. -/
def containsChars (pat : List Char) : List Char → Bool
  | [] => pat.isEmpty
  | c :: cs => startsWithChars pat (c :: cs) || containsChars pat cs

/-- Python `needle in hay` for strings. -/
def pyIn (needle hay : String) : Bool := containsChars needle.data hay.data

/-- A pandas DataFrame with the default integer RangeIndex: the column
labels and the list of rows. -/
structure DataFrame where
  cols : List String
  rows : List (List Cell)
deriving DecidableEq

/-- Well-formedness: every row has one cell per column. -/
def DataFrame.WF (df : DataFrame) : Prop := ∀ r ∈ df.rows, r.length = df.cols.length

instance (df : DataFrame) : Decidable df.WF :=
  inferInstanceAs (Decidable (∀ r ∈ df.rows, r.length = df.cols.length))

/-- Cell of a row at a column position (`row.iloc[j]` / `row[col_j]`). -/
def cellAt (row : List Cell) (j : Nat) : Cell := row.getD j (Cell.str (""))

/-- Row of a DataFrame at a nonnegative position (`df.iloc[i]`). -/
def rowAt (df : DataFrame) (i : Nat) : List Cell := df.rows.getD i []

/-- Row access `df.iloc[i]` for a possibly negative Python index. -/
def ilocRow (df : DataFrame) (i : Int) : List Cell :=
  if 0 ≤ i then rowAt df i.toNat else rowAt df (df.rows.length - (-i).toNat)

/-- Python `l[-n:]`: the last at most `n` elements of a list. -/
def lastN (n : Nat) (l : List α) : List α := l.drop (l.length - n)

/-- The rows `a, a+1, ..., b-1` of a DataFrame, clamped at its length,
exactly like `df.iloc[a:b]` and (for the default RangeIndex)
`df.loc[a:b-1]`. -/
def sliceRows (df : DataFrame) (a b : Nat) : List (List Cell) := (df.rows.drop a).take (b - a)

/-- The test `label_text.lower() in str(row.iloc[0]).lower()` used by all
three copies of `find_data_row`. -/
def rowMatches (row : List Cell) (label_text : String) : Bool :=
  pyIn (pyLower label_text) (pyLower (Cell.pyStr (cellAt row 0)))

/-- The scanning loop of `find_data_row`, carrying the current index. -/
def find_data_row_aux (label_text : String) : Nat → List (List Cell) → Int
  | _, [] => -1
  | i, r :: rs => if rowMatches r label_text then Int.ofNat i else find_data_row_aux label_text (i + 1) rs

/-- Main.py `_find_data_row`: first row whose first cell contains the
label case-insensitively, else -1. -/
def _find_data_row (df : DataFrame) (label_text : String) : Int :=
  find_data_row_aux label_text 0 df.rows

/-- DataFromSheetForSlide7.py / DataFromSheetForSlide9.py
`find_data_row`, textually identical to `_find_data_row`. -/
def find_data_row (df : DataFrame) (label_text : String) : Int :=
  find_data_row_aux label_text 0 df.rows

/-- Main.py `_extract_data_block_slide7`: locate the block by its start
label, take the header from the row above, keep the last four week
columns, slice `num_rows` rows. `none` models the Python `(None, None)`
return. -/
def _extract_data_block_slide7 (df : DataFrame) (start_label : String) (num_rows : Nat) :
    Option (List Cell × List (String × List Cell)) :=
  let r := _find_data_row df start_label
  if r = -1 then none else
  let s := r.toNat
  let header_row := ilocRow df ((s : Int) - 1)
  let all_week_cols := (List.range df.cols.length).filter
    (fun j => pyIn ("Week") (Cell.pyStr (cellAt header_row j)))
  let last_four_week_cols := lastN 4 all_week_cols
  let last_four_week_headers := last_four_week_cols.map (fun j => Cell.pyStr (cellAt header_row j))
  let data_end_row := s + num_rows
  let categories := (sliceRows df s data_end_row).map (fun row => cellAt row 0)
  let data_dict := (last_four_week_headers.zip last_four_week_cols).map
    (fun hj => (hj.1, (sliceRows df s data_end_row).map (fun row => cellAt row hj.2)))
  some (categories, data_dict)

/-- DataFromSheetForSlide7.py `extract_data_block`: the standalone
restatement of the same block extractor (it additionally prints a
warning before returning the `None` pair). -/
def extract_data_block (df : DataFrame) (start_label : String) (num_rows : Nat) :
    Option (List Cell × List (String × List Cell)) :=
  let r := find_data_row df start_label
  if r = -1 then none else
  let s := r.toNat
  let header_row := ilocRow df ((s : Int) - 1)
  let all_week_cols := (List.range df.cols.length).filter
    (fun j => pyIn ("Week") (Cell.pyStr (cellAt header_row j)))
  let last_four_week_cols := lastN 4 all_week_cols
  let last_four_week_headers := last_four_week_cols.map (fun j => Cell.pyStr (cellAt header_row j))
  let data_end_row := s + num_rows
  let categories := (sliceRows df s data_end_row).map (fun row => cellAt row 0)
  let data_dict := (last_four_week_headers.zip last_four_week_cols).map
    (fun hj => (hj.1, (sliceRows df s data_end_row).map (fun row => cellAt row hj.2)))
  some (categories, data_dict)

/-- The result of Main.py `_extract_slide6_table_data`. -/
structure TableData where
  title : String
  headers : List Cell
  row_labels : List Cell
  data : List (Cell × List Cell)
deriving DecidableEq

/-- The positions of the columns whose header cell contains "Week"
(`[col for col in df.columns if "Week" in str(header_row[col])]`). -/
def slide6WeekCols (ncols : Nat) (header_row : List Cell) : List Nat :=
  (List.range ncols).filter (fun j => pyIn ("Week") (Cell.pyStr (cellAt header_row j)))

/-- The week labels of a header row in column order (`all_weeks`). -/
def slide6AllWeeks (ncols : Nat) (header_row : List Cell) : List Cell :=
  (slide6WeekCols ncols header_row).map (fun j => cellAt header_row j)

/-- Main.py `_extract_slide6_table_data` (the same logic as the INC/RITM
blocks of DataFromSheetForSlide6.py `main`). `none` models a raised
exception: `df.iloc[header_row_idx]` out of range, `df.columns[0]` on a
column-less frame, or the KeyError raised by `data_rows_df[col]` when
the first column (consumed by `set_index(df.columns[0])`) is itself one
of the selected week columns. The Python dict is modelled as the
association list produced in iteration order. -/
def _extract_slide6_table_data (df : DataFrame) (title : String)
    (header_row_idx num_data_rows : Nat) : Option TableData :=
  match df.rows.get? header_row_idx with
  | none => none
  | some header_row =>
    if df.cols.length = 0 then none else
    let last_four_weeks := lastN 4 (slide6AllWeeks df.cols.length header_row)
    let week_cols := (List.range df.cols.length).filter
      (fun j => decide (cellAt header_row j ∈ last_four_weeks))
    let slice := sliceRows df (header_row_idx + 1) (header_row_idx + 1 + num_data_rows)
    let row_labels := slice.map (fun row => cellAt row 0)
    if 0 ∈ week_cols then none else
    some (TableData.mk title last_four_weeks row_labels
      (week_cols.map (fun j => (cellAt header_row j, slice.map (fun row => cellAt row j)))))

/-- A chart shape added to a slide, carrying the chart data the code
passes to `slide.shapes.add_chart` (static font/axis formatting is not
part of the shape data the claims are about). -/
structure ChartShape where
  chartType : String
  position : Int × Int × Int × Int
  categories : List Cell
  series : List (String × List Cell)
  title : String
deriving DecidableEq

/-- Main.py `_add_bar_chart_slide7`, modelled at the level of the list
of shapes on the slide: with a `None` data_dict it returns at once,
otherwise it adds exactly one clustered-column chart shape built from
the given categories and series. -/
def _add_bar_chart_slide7 (slide : List ChartShape) (categories : Option (List Cell))
    (data_dict : Option (List (String × List Cell))) (position : Int × Int × Int × Int)
    (title : String) : List ChartShape :=
  match data_dict with
  | none => slide
  | some d => slide ++ [ChartShape.mk ("COLUMN_CLUSTERED") position (categories.getD []) d title]

/-- Main.py `_extract_pending_data_slide8` (same logic as
DataFromSheetForSlide8.py `extract_pending_data_from_rows`): keep the
requested series columns that exist, slice the last four rows and key
the categories by the week column. `.ok none` models the `(None, None)`
return, `.error` the KeyError raised when the `Week #` column is
absent. -/
def _extract_pending_data_slide8 (df : DataFrame) (series_labels : List String)
    (week_column_label : String) :
    Except String (Option (List String × List (String × List Cell))) :=
  let valid_series_labels := series_labels.filter (fun l => decide (l ∈ df.cols))
  if valid_series_labels.isEmpty then Except.ok none
  else if week_column_label ∈ df.cols then
    let last_four_rows := lastN 4 df.rows
    let categories := last_four_rows.map
      (fun row => Cell.pyStr (cellAt row (df.cols.findIdx (fun c => c == week_column_label))))
    let data_dict := valid_series_labels.map
      (fun l => (l, last_four_rows.map (fun row => cellAt row (df.cols.findIdx (fun c => c == l)))))
    Except.ok (some (categories, data_dict))
  else Except.error ("KeyError")

/-- Main.py `_extract_data_block_slide9` (same logic as
DataFromSheetForSlide9.py `extract_change_data_block`): the start-label
row is itself the header row, and the selected data columns are the
last four of `df.columns[1:]`, by position. -/
def _extract_data_block_slide9 (df : DataFrame) (start_label : String) (num_rows : Nat) :
    Option (List Cell × List (String × List Cell) × List String) :=
  let r := _find_data_row df start_label
  if r = -1 then none else
  let s := r.toNat
  let header_row := rowAt df s
  let all_data_cols := (List.range df.cols.length).drop 1
  let last_four_data_cols := lastN 4 all_data_cols
  let last_four_week_headers := last_four_data_cols.map (fun j => Cell.pyStr (cellAt header_row j))
  let data_start_row := s + 1
  let data_end_row := data_start_row + num_rows
  let categories := (sliceRows df data_start_row data_end_row).map (fun row => cellAt row 0)
  let data_dict := (last_four_week_headers.zip last_four_data_cols).map
    (fun hj => (hj.1, (sliceRows df data_start_row data_end_row).map (fun row => cellAt row hj.2)))
  some (categories, data_dict, last_four_week_headers)

/-- One extracted table of Main.py `_extract_data_for_slide10`. -/
structure Table10 where
  title : String
  headers : List String
  data : List (String × List Int)
deriving DecidableEq

/-- Python `int(cell)`: the identity on integers; on strings, a decimal
parse of the trimmed text, `none` modelling the raised ValueError. -/
def cellToInt? : Cell → Option Int
  | Cell.num n => some n
  | Cell.str s => pyToInt? s

/-- The per-row preprocessing `df[0] = df[0].astype(str).str.strip()`. -/
def stripCell0 (r : List Cell) : List Cell :=
  match r with
  | [] => []
  | c :: rest => Cell.str (pyStrip (Cell.pyStr c)) :: rest

/-- The slide-10 DataFrame after its first column is stringified and
stripped. -/
def slide10Pre (df : DataFrame) : DataFrame := DataFrame.mk df.cols (df.rows.map stripCell0)

/-- Linear scan for the first row at or after a position satisfying a
predicate, carrying the current absolute index. -/
def findIdxFromAux (p : List Cell → Bool) : Nat → List (List Cell) → Option Nat
  | _, [] => none
  | i, r :: rs => if p r then some i else findIdxFromAux p (i + 1) rs

/-- First index `i ≥ a` with `p (rows[i])`, as used by the pandas
boolean-mask `.index[0]` lookups and the header-row loop of slide 10. -/
def findIdxFrom (rows : List (List Cell)) (a : Nat) (p : List Cell → Bool) : Option Nat :=
  findIdxFromAux p a (rows.drop a)

/-- Row predicate `df[0] == table_title` of slide 10. -/
def titleRowP (table_title : String) (r : List Cell) : Bool :=
  Cell.pyStr (cellAt r 0) == table_title

/-- Row predicate `search_area[0] == 'Grand Total'` of slide 10. -/
def grandTotalP (r : List Cell) : Bool := Cell.pyStr (cellAt r 0) == "Grand Total"

/-- Row predicate of the slide-10 header scan: some of the last four
cells contains "Week". -/
def weekHeaderP (r : List Cell) : Bool := (lastN 4 r).any (fun c => pyIn ("Week") (Cell.pyStr c))

/-- The stripped first-cell text `str(current_row.iloc[0]).strip()`. -/
def rowTitle10 (r : List Cell) : String := pyStrip (Cell.pyStr (cellAt r 0))

/-- The list `[int(val) for val in current_row.iloc[-4:]]`, `none` when
some conversion raises. -/
def intLast4 (r : List Cell) : Option (List Int) := (lastN 4 r).mapM cellToInt?

/-- The slide-10 data-row loop: keep rows with a non-empty stripped
title, converting the last four cells with `int()`; `none` models the
ValueError that aborts the whole table. -/
def buildRows10 : List (List Cell) → Option (List (String × List Int))
  | [] => some []
  | r :: rs =>
    if rowTitle10 r == "" then buildRows10 rs
    else
      match intLast4 r with
      | none => none
      | some d =>
        match buildRows10 rs with
        | none => none
        | some rest => some ((rowTitle10 r, d) :: rest)

/-- The three table titles slide 10 looks for. -/
def target_table_titles : List String :=
  ["Business Service - INC", "Business Service - RITM", "Business Service - Change Requests"]

/-- The per-title body of Main.py `_extract_data_for_slide10` (same
logic as DataFromSheetForSlide10.py `print_data_from_sheet_pandas`):
find the title row, the Grand Total row at or below it, the first
header row in between whose trailing four cells mention "Week", then
collect the non-empty-titled data rows from the header to the Grand
Total row inclusive. `none` covers every `continue` and the caught
per-table exception. -/
def extractTable10 (df0 : DataFrame) (table_title : String) : Option Table10 :=
  let df := slide10Pre df0
  match findIdxFrom df.rows 0 (titleRowP table_title) with
  | none => none
  | some start_index =>
    match findIdxFrom df.rows start_index grandTotalP with
    | none => none
    | some end_index =>
      match findIdxFrom df.rows start_index weekHeaderP with
      | none => none
      | some header_row_index =>
        if header_row_index < end_index then
          let header_row := rowAt df header_row_index
          let week_labels := (lastN 4 header_row).map (fun c => pyStrip (Cell.pyStr c))
          match buildRows10 ((df.rows.drop (header_row_index + 1)).take (end_index - header_row_index)) with
          | none => none
          | some data_rows => some (Table10.mk table_title (table_title :: week_labels) data_rows)
        else none

/-- Main.py `_extract_data_for_slide10`: the tables of the three target
titles, in order, skipping the ones whose extraction fails. -/
def _extract_data_for_slide10 (df : DataFrame) : List Table10 :=
  target_table_titles.filterMap (extractTable10 df)

/-- A PowerPoint shape as seen by the styling pass: whether it hosts a
chart, its current chart style, and an opaque payload standing for all
its other properties. -/
structure PShape where
  hasChart : Bool
  chartStyle : Int
  payload : String
deriving DecidableEq

/-- List update at an index, the effect of an item assignment. -/
def setAt : List α → Nat → α → List α
  | [], _, _ => []
  | _ :: t, 0, v => v :: t
  | h :: t, n + 1, v => h :: setAt t n v

/-- The inner loop of `apply_chart_styles`: assign the style id to the
chart of every chart shape of a slide. -/
def applyStyleToSlide (style_id : Int) (sl : List PShape) : List PShape :=
  sl.map (fun sh => if sh.hasChart then PShape.mk sh.hasChart style_id sh.payload else sh)

/-- Main.py `apply_chart_styles`, with the office-automation object
model embedded as data: for each `(slide_index, style_id)` item, if the
slide exists, set the ChartStyle of its chart shapes. -/
def apply_chart_styles (pres : List (List PShape)) (styles_to_apply : List (Nat × Int)) :
    List (List PShape) :=
  styles_to_apply.foldl
    (fun p si =>
      if p.length < si.1 + 1 then p
      else setAt p si.1 (applyStyleToSlide si.2 (p.getD si.1 [])))
    pres

/-- The final output path of the workflow. -/
def FINAL_OUTPUT_PPTX_PATH : String := "Output/Final_Output.pptx"

/-- The temporary presentation path of the workflow. -/
def temp_output_path : String := "Output/temp_presentation.pptx"

/-- Create a file path in a file-system state. -/
def fsAdd (fs : List String) (path : String) : List String :=
  if path ∈ fs then fs else fs ++ [path]

/-- Delete a file path from a file-system state (`os.remove`). -/
def fsRemove (fs : List String) (path : String) : List String :=
  fs.filter (fun q => q != path)

/-- The file effects of the tail of `__main__`: save the temporary
presentation, have `apply_chart_styles` save the final output, then
delete the temporary file. -/
def mainFilePhase (fs : List String) : List String :=
  fsRemove (fsAdd (fsAdd fs temp_output_path) FINAL_OUTPUT_PPTX_PATH) temp_output_path

/-- Worksheet name read for slide 6. -/
def SHEET_NAME_SLIDE_6 : String := "Volumetric trends INC & RITM"

/-- Worksheet name read for slide 7. -/
def SHEET_NAME_SLIDE_7 : String := "Created"

/-- Worksheet name read for slide 8. -/
def SHEET_NAME_SLIDE_8 : String := "Pending Counts"

/-- Worksheet name read for slide 9. -/
def SHEET_NAME_SLIDE_9 : String := "Volumetric Change details"

/-- Worksheet name read for slide 10. -/
def SHEET_NAME_SLIDE_10 : String := "Business Services"

/-- The five worksheet names `__main__` reads. -/
def sheetNames : List String :=
  [SHEET_NAME_SLIDE_6, SHEET_NAME_SLIDE_7, SHEET_NAME_SLIDE_8, SHEET_NAME_SLIDE_9,
   SHEET_NAME_SLIDE_10]

/-- A workbook: worksheets by name. `pd.read_excel` of an absent sheet
raises, modelled by a `none` lookup. -/
def lookupSheet (wb : List (String × DataFrame)) (name : String) : Option DataFrame :=
  (wb.find? (fun p => p.1 == name)).map (fun p => p.2)

/-- The column-label strip `df.columns = df.columns.str.strip()` done by
`populate_slide_8`. -/
def stripColsDf (df : DataFrame) : DataFrame := DataFrame.mk (df.cols.map pyStrip) df.rows

/-- Series labels of the slide-8 INC chart. -/
def inc_series_labels : List String := ["Pending INCs", "INCs Resolved", "Total INCs Created"]

/-- Series labels of the slide-8 RITM chart. -/
def ritm_series_labels : List String := ["Pending RITMs", "RITMs Fulfilled", "Total RITMs Created"]

/-- The data each slide pipeline extracts, standing for the populated
slides of the run. -/
structure MainArtifacts where
  slide6_inc : Option TableData
  slide6_ritm : Option TableData
  slide7_created : Option (List Cell × List (String × List Cell))
  slide7_closed : Option (List Cell × List (String × List Cell))
  slide8_inc : Except String (Option (List String × List (String × List Cell)))
  slide8_ritm : Except String (Option (List String × List (String × List Cell)))
  slide9_type : Option (List Cell × List (String × List Cell) × List String)
  slide9_closure : Option (List Cell × List (String × List Cell) × List String)
  slide10 : List Table10

/-- The `__main__` workflow up to its data content: the five sheets are
read inside one try/except whose handler prints a fatal error and calls
`exit()`, so a single missing sheet yields `none` — no slide is
populated. On success every slide pipeline runs on its sheet. -/
def runMain (wb : List (String × DataFrame)) : Option MainArtifacts :=
  (lookupSheet wb SHEET_NAME_SLIDE_6).bind (fun df6 =>
  (lookupSheet wb SHEET_NAME_SLIDE_7).bind (fun df7 =>
  (lookupSheet wb SHEET_NAME_SLIDE_8).bind (fun df8 =>
  (lookupSheet wb SHEET_NAME_SLIDE_9).bind (fun df9 =>
  (lookupSheet wb SHEET_NAME_SLIDE_10).bind (fun df10 =>
  some (MainArtifacts.mk
    (_extract_slide6_table_data df6 ("INC") 0 5)
    (_extract_slide6_table_data df6 ("RITM") 8 5)
    (_extract_data_block_slide7 df7 ("Tools Created") 4)
    (_extract_data_block_slide7 df7 ("Auto closed by Tools") 2)
    (_extract_pending_data_slide8 (stripColsDf df8) inc_series_labels ("Week #"))
    (_extract_pending_data_slide8 (stripColsDf df8) ritm_series_labels ("Week #"))
    (_extract_data_block_slide9 df9 ("Type") 6)
    (_extract_data_block_slide9 df9 ("Closure Type") 4)
    (_extract_data_for_slide10 df10)))))))

/-- A cell value occurring somewhere in the input DataFrame. -/
def CellOf (df : DataFrame) (c : Cell) : Prop := ∃ r ∈ df.rows, c ∈ r

/-- The property of being the first row at or after `a` satisfying `p`:
`a ≤ i`, `i` in range, `p` holds at `i` and fails on `[a, i)`. -/
def IsFirstFrom (rows : List (List Cell)) (a i : Nat) (p : List Cell → Bool) : Prop :=
  a ≤ i ∧ i < rows.length ∧ p (rows.getD i []) = true ∧
    ∀ j, j < i → a ≤ j → p (rows.getD j []) = false

/-- The analogous property for `_find_data_row`: row `i` is the first
match of the label scan. -/
def IsFirstMatch (df : DataFrame) (label_text : String) (i : Nat) : Prop :=
  i < df.rows.length ∧ rowMatches (rowAt df i) label_text = true ∧
    ∀ j, j < i → rowMatches (rowAt df j) label_text = false

instance (rows : List (List Cell)) (a i : Nat) (p : List Cell → Bool) :
    Decidable (IsFirstFrom rows a i p) := by
  unfold IsFirstFrom
  infer_instance

instance (df : DataFrame) (label_text : String) (i : Nat) :
    Decidable (IsFirstMatch df label_text i) := by
  unfold IsFirstMatch
  infer_instance

/-- C1 counterexample input: the header row consists of four week
labels, so the first column is itself a selected week column. -/
def dfC1 : DataFrame := DataFrame.mk ["A", "B", "C", "D"]
  [[Cell.str ("Week 1"), Cell.str ("Week 2"), Cell.str ("Week 3"), Cell.str ("Week 4")],
   [Cell.num 1, Cell.num 2, Cell.num 3, Cell.num 4]]

/-- A well-formed slide-6 style input: label column first, then four
distinct week columns, one data row. -/
def dfW6 : DataFrame := DataFrame.mk ["A", "B", "C", "D", "E"]
  [[Cell.str ("Item"), Cell.str ("Week 1"), Cell.str ("Week 2"), Cell.str ("Week 3"),
    Cell.str ("Week 4")],
   [Cell.str ("INCs"), Cell.num 10, Cell.num 20, Cell.num 30, Cell.num 40]]

/-- C2 counterexample input: a slide-9 sheet whose start row carries
headers that do not contain "Week". -/
def dfC2 : DataFrame := DataFrame.mk ["c0", "c1", "c2", "c3", "c4"]
  [[Cell.str ("Type"), Cell.str ("A"), Cell.str ("B"), Cell.str ("C"), Cell.str ("D")],
   [Cell.str ("x"), Cell.num 1, Cell.num 2, Cell.num 3, Cell.num 4]]

/-- A small slide-7 style input: header row with one week column above a
labelled data row. -/
def dfW7 : DataFrame := DataFrame.mk ["A", "B"]
  [[Cell.str ("Label"), Cell.str ("Week 1")],
   [Cell.str ("Tools Created x"), Cell.num 7]]

/-- A workbook holding every sheet the workflow reads except
`Created`. -/
def wbC3 : List (String × DataFrame) :=
  [(SHEET_NAME_SLIDE_6, DataFrame.mk [] []),
   (SHEET_NAME_SLIDE_8, DataFrame.mk [] []),
   (SHEET_NAME_SLIDE_9, DataFrame.mk [] []),
   (SHEET_NAME_SLIDE_10, DataFrame.mk [] [])]

/-- A slide-10 sheet with one complete `Business Service - INC` block,
including an empty-titled row that the data loop must skip. -/
def dfW10 : DataFrame := DataFrame.mk ["0", "1", "2", "3", "4"]
  [[Cell.str ("Business Service - INC"), Cell.str (""), Cell.str (""), Cell.str (""),
    Cell.str ("")],
   [Cell.str ("Category"), Cell.str ("Week 1"), Cell.str ("Week 2"), Cell.str ("Week 3"),
    Cell.str ("Week 4")],
   [Cell.str ("App A"), Cell.num 1, Cell.num 2, Cell.num 3, Cell.num 4],
   [Cell.str (""), Cell.num 0, Cell.num 0, Cell.num 0, Cell.num 0],
   [Cell.str ("Grand Total"), Cell.num 1, Cell.num 2, Cell.num 3, Cell.num 4]]

/-- A presentation with one chart shape and one chartless shape on
separate slides, for exercising the styling pass. -/
def presW : List (List PShape) :=
  [[PShape.mk true 2 ("chart")], [PShape.mk false 2 ("textbox")]]

/-- A styling request touching only slide 0. -/
def stylesW : List (Nat × Int) := [(0, 228)]

/-- Frame relation between an original shape and its styled version:
everything but possibly the chart style of a chart shape agrees. -/
def shapeFrame (orig new : PShape) : Prop :=
  new.hasChart = orig.hasChart ∧ new.payload = orig.payload ∧
    (orig.hasChart = false → new.chartStyle = orig.chartStyle)

theorem getD_mem {l : List (List Cell)} {i : Nat} (h : i < l.length) : l.getD i [] ∈ l := by
  induction l generalizing i with
  | nil => simp at h
  | cons x xs ih =>
    cases i with
    | zero => simp
    | succ n =>
      simp only [List.getD_cons_succ]
      exact List.mem_cons_of_mem x (ih (by simpa using h))

theorem cellAt_mem {r : List Cell} {j : Nat} (h : j < r.length) : cellAt r j ∈ r := by
  unfold cellAt
  induction r generalizing j with
  | nil => simp at h
  | cons x xs ih =>
    cases j with
    | zero => simp
    | succ n =>
      simp only [List.getD_cons_succ]
      exact List.mem_cons_of_mem x (ih (by simpa using h))

theorem getD_drop (l : List (List Cell)) : ∀ (a k : Nat), (l.drop a).getD k [] = l.getD (a + k) [] := by
  induction l with
  | nil => intro a k; simp
  | cons x xs ih =>
    intro a k
    cases a with
    | zero => simp
    | succ a => simp [Nat.succ_add, ih a k]

theorem lastN_subset (n : Nat) (l : List α) : lastN n l ⊆ l := List.drop_subset _ l

theorem lastN_map (f : α → β) (n : Nat) (l : List α) : lastN n (l.map f) = (lastN n l).map f := by
  simp [lastN]

theorem map_zip_self (g : α → β) : ∀ (l : List α), (l.map g).zip l = l.map (fun j => (g j, j))
  | [] => rfl
  | x :: xs => by simpa using map_zip_self g xs

theorem length_sliceRows (df : DataFrame) (a b : Nat) :
    (sliceRows df a b).length = min (b - a) (df.rows.length - a) := by
  simp [sliceRows]

theorem sliceRows_subset (df : DataFrame) (a b : Nat) : sliceRows df a b ⊆ df.rows :=
  fun _ h => List.drop_subset _ _ (List.take_subset _ _ h)

theorem find_aux_spec (label_text : String) : ∀ (rows : List (List Cell)) (i : Nat),
    (find_data_row_aux label_text i rows = -1 ∧ ∀ r ∈ rows, rowMatches r label_text = false)
    ∨ ∃ k, k < rows.length ∧ rowMatches (rows.getD k []) label_text = true ∧
        (∀ j, j < k → rowMatches (rows.getD j []) label_text = false) ∧
        find_data_row_aux label_text i rows = Int.ofNat (i + k) := by
  intro rows
  induction rows with
  | nil => intro i; left; exact ⟨rfl, by simp⟩
  | cons r rs ih =>
    intro i
    by_cases hm : rowMatches r label_text = true
    · right
      exact ⟨0, by simp, by simpa using hm, by omega, by simp [find_data_row_aux, hm]⟩
    · have hm' : rowMatches r label_text = false := by
        cases h : rowMatches r label_text
        · rfl
        · exact absurd h hm
      rcases ih (i + 1) with ⟨h1, h2⟩ | ⟨k, hk, hmk, hb, he⟩
      · left
        constructor
        · simp [find_data_row_aux, hm', h1]
        · intro r' hr'
          rcases List.mem_cons.mp hr' with h | h
          · exact h ▸ hm'
          · exact h2 r' h
      · right
        refine ⟨k + 1, by simpa using Nat.succ_lt_succ hk, by simpa using hmk, ?_, ?_⟩
        · intro j hj
          cases j with
          | zero => simpa using hm'
          | succ j => simpa using hb j (by omega)
        · have : i + 1 + k = i + (k + 1) := by omega
          simp [find_data_row_aux, hm', he, this]

theorem find_aux_first (label_text : String) : ∀ (rows : List (List Cell)) (k i : Nat),
    k < rows.length → rowMatches (rows.getD k []) label_text = true →
    (∀ j, j < k → rowMatches (rows.getD j []) label_text = false) →
    find_data_row_aux label_text i rows = Int.ofNat (i + k) := by
  intro rows
  induction rows with
  | nil => intro k i hk; simp at hk
  | cons r rs ih =>
    intro k i hk hm hb
    cases k with
    | zero => simp only [List.getD_cons_zero] at hm; simp [find_data_row_aux, hm]
    | succ k =>
      have h0 : rowMatches r label_text = false := by simpa using hb 0 (by omega)
      have := ih k (i + 1) (by simpa using Nat.lt_of_succ_lt_succ hk) (by simpa using hm)
        (fun j hj => by simpa using hb (j + 1) (by omega))
      have harith : i + 1 + k = i + (k + 1) := by omega
      simp [find_data_row_aux, h0, this, harith]

theorem find_aux_none (label_text : String) (rows : List (List Cell))
    (h : ∀ r ∈ rows, rowMatches r label_text = false) :
    ∀ i, find_data_row_aux label_text i rows = -1 := by
  induction rows with
  | nil => intro i; rfl
  | cons r rs ih =>
    intro i
    have h0 : rowMatches r label_text = false := h r (List.mem_cons_self r rs)
    simp [find_data_row_aux, h0, ih (fun r' hr' => h r' (List.mem_cons_of_mem r hr')) (i + 1)]

theorem find_of_first_match (df : DataFrame) (label_text : String) (s : Nat)
    (h : IsFirstMatch df label_text s) : _find_data_row df label_text = Int.ofNat s := by
  obtain ⟨hlen, hm, hb⟩ := h
  simpa using find_aux_first label_text df.rows s 0 hlen hm (fun j hj => hb j hj)

theorem findIdxFromAux_first (p : List Cell → Bool) : ∀ (l : List (List Cell)) (k base : Nat),
    k < l.length → p (l.getD k []) = true → (∀ j, j < k → p (l.getD j []) = false) →
    findIdxFromAux p base l = some (base + k) := by
  intro l
  induction l with
  | nil => intro k base hk; simp at hk
  | cons r rs ih =>
    intro k base hk hm hb
    cases k with
    | zero => simp only [List.getD_cons_zero] at hm; simp [findIdxFromAux, hm]
    | succ k =>
      have h0 : p r = false := by simpa using hb 0 (by omega)
      have := ih k (base + 1) (by simpa using Nat.lt_of_succ_lt_succ hk) (by simpa using hm)
        (fun j hj => by simpa using hb (j + 1) (by omega))
      have harith : base + 1 + k = base + (k + 1) := by omega
      simp [findIdxFromAux, h0, this, harith]

theorem findIdxFrom_first (rows : List (List Cell)) (a i : Nat) (p : List Cell → Bool)
    (h : IsFirstFrom rows a i p) : findIdxFrom rows a p = some i := by
  obtain ⟨hai, hlen, hp, hb⟩ := h
  unfold findIdxFrom
  have hlen2 : i - a < (rows.drop a).length := by
    rw [List.length_drop]; omega
  have hp2 : p ((rows.drop a).getD (i - a) []) = true := by
    rw [getD_drop]
    have harith : a + (i - a) = i := by omega
    rw [harith]; exact hp
  have hb2 : ∀ j, j < i - a → p ((rows.drop a).getD j []) = false := by
    intro j hj
    rw [getD_drop]
    exact hb (a + j) (by omega) (by omega)
  have hres := findIdxFromAux_first p (rows.drop a) (i - a) a hlen2 hp2 hb2
  rw [hres]
  congr 1
  omega

theorem buildRows10_spec : ∀ (l : List (List Cell)),
    (∀ r ∈ l, (rowTitle10 r == "") = false → (intLast4 r).isSome = true) →
    buildRows10 l = some ((l.filter (fun r => !(rowTitle10 r == ""))).map
      (fun r => (rowTitle10 r, (intLast4 r).getD []))) := by
  intro l
  induction l with
  | nil => intro _; rfl
  | cons r rs ih =>
    intro h
    have hrest := ih (fun r' hr' => h r' (List.mem_cons_of_mem r hr'))
    by_cases ht : (rowTitle10 r == "") = true
    · simp only [buildRows10, ht, if_true, List.filter_cons, Bool.not_true,
        Bool.false_eq_true, if_false]
      exact hrest
    · have ht' : (rowTitle10 r == "") = false := by
        cases hh : (rowTitle10 r == "")
        · rfl
        · exact absurd hh ht
      obtain ⟨d, hd⟩ := Option.isSome_iff_exists.mp (h r (List.mem_cons_self r rs) ht')
      simp only [buildRows10, ht', Bool.false_eq_true, if_false, hd, hrest,
        List.filter_cons, Bool.not_false, if_true, List.map_cons]
      rfl

theorem filter_filter_of_imp {p q : α → Bool} (l : List α) (h : ∀ a, p a = true → q a = true) :
    l.filter p = (l.filter q).filter p := by
  rw [List.filter_filter]
  apply List.filter_congr
  intro a _
  by_cases hpa : p a = true
  · simp [hpa, h a hpa]
  · have hf : p a = false := by
      cases hh : p a
      · rfl
      · exact absurd hh hpa
    simp [hf]

theorem filter_lastN_of_nodup {l : List α} [DecidableEq α] (h : l.Nodup) (n : Nat) :
    l.filter (fun j => decide (j ∈ lastN n l)) = lastN n l := by
  have hLd : lastN n l = l.drop (l.length - n) := rfl
  generalize hL : lastN n l = L
  rw [hL] at hLd
  have hsplit : l.take (l.length - n) ++ l.drop (l.length - n) = l :=
    List.take_append_drop _ l
  have hnd : (l.take (l.length - n) ++ l.drop (l.length - n)).Nodup := by
    rw [hsplit]; exact h
  have hdisj : (l.take (l.length - n)).Disjoint (l.drop (l.length - n)) :=
    (List.nodup_append.mp hnd).2.2
  conv_lhs => rw [← hsplit]
  rw [List.filter_append]
  have hleft : (l.take (l.length - n)).filter (fun j => decide (j ∈ L)) = [] := by
    rw [List.filter_eq_nil_iff]
    intro a ha
    simp only [decide_eq_true_eq]
    intro hmem
    exact hdisj ha (hLd ▸ hmem)
  have hright : (l.drop (l.length - n)).filter (fun j => decide (j ∈ L)) =
      l.drop (l.length - n) := by
    rw [List.filter_eq_self]
    intro a ha
    exact decide_eq_true (hLd ▸ ha)
  rw [hleft, hright, List.nil_append, ← hLd]

theorem slide6_week_cols_eq (n : Nat) (hr : List Cell)
    (hnodup : (slide6AllWeeks n hr).Nodup) :
    (List.range n).filter (fun j => decide (cellAt hr j ∈ lastN 4 (slide6AllWeeks n hr))) =
      lastN 4 (slide6WeekCols n hr) := by
  have hA : lastN 4 (slide6AllWeeks n hr) =
      (lastN 4 (slide6WeekCols n hr)).map (fun j => cellAt hr j) := by
    unfold slide6AllWeeks
    exact lastN_map _ 4 _
  have hWn : (slide6WeekCols n hr).Nodup := List.Nodup.filter _ (List.nodup_range n)
  have hmapn : ((slide6WeekCols n hr).map (fun j => cellAt hr j)).Nodup := by
    unfold slide6AllWeeks at hnodup
    exact hnodup
  rw [hA]
  have himp : ∀ j, (fun j => decide (cellAt hr j ∈ (lastN 4 (slide6WeekCols n hr)).map
      (fun j => cellAt hr j))) j = true →
      (fun j => pyIn ("Week") (Cell.pyStr (cellAt hr j))) j = true := by
    intro j hj
    obtain ⟨j2, hj2, hfj⟩ := List.mem_map.mp (of_decide_eq_true hj)
    have hj2W : j2 ∈ slide6WeekCols n hr := lastN_subset 4 _ hj2
    have hq := (List.mem_filter.mp hj2W).2
    rw [hfj] at hq
    exact hq
  have step1 := filter_filter_of_imp (List.range n) himp
  have hWdef : (List.range n).filter (fun j => pyIn ("Week") (Cell.pyStr (cellAt hr j))) =
      slide6WeekCols n hr := rfl
  rw [hWdef] at step1
  rw [step1]
  have step2 : (slide6WeekCols n hr).filter (fun j => decide (cellAt hr j ∈
      (lastN 4 (slide6WeekCols n hr)).map (fun j => cellAt hr j))) =
      (slide6WeekCols n hr).filter (fun j => decide (j ∈ lastN 4 (slide6WeekCols n hr))) := by
    apply List.filter_congr
    intro a ha
    simp only [decide_eq_decide]
    constructor
    · intro hmem
      obtain ⟨j2, hj2, hfj⟩ := List.mem_map.mp hmem
      have hj2W : j2 ∈ slide6WeekCols n hr := lastN_subset 4 _ hj2
      have heq : j2 = a := List.inj_on_of_nodup_map hmapn hj2W ha hfj
      exact heq ▸ hj2
    · intro hmem
      exact List.mem_map_of_mem _ hmem
  rw [step2]
  exact filter_lastN_of_nodup hWn 4




theorem option_bind_none {α β : Type} {o : Option α} {f : α → Option β}
    (h : ∀ a, f a = none) : o.bind f = none := by
  cases o
  · rfl
  · exact h _

/-- C7: for every input DataFrame, start label and row count, the
integrated pipeline extractor `_extract_data_block_slide7` of Main.py
and the standalone `extract_data_block` of DataFromSheetForSlide7.py
return the same (categories, data_dict) pair: the two restatements of
the table-locator-and-slice component are equivalent. -/
theorem c7_slide7_extractors_equivalent :
    ∀ (df : DataFrame) (start_label : String) (num_rows : Nat),
      _extract_data_block_slide7 df start_label num_rows =
        extract_data_block df start_label num_rows :=
  fun _ _ _ => rfl

/-- C8: the shared `find_data_row` scan (one copy in Main.py, one each
in the slide-7 and slide-9 scripts, all identical) returns the smallest
row index whose first cell contains the label case-insensitively, and
returns -1 exactly when no row's first cell contains it. -/
theorem c8_find_data_row_least_index (df : DataFrame) (label_text : String) :
    (_find_data_row df label_text = find_data_row df label_text) ∧
    ((∃ i : Nat, IsFirstMatch df label_text i ∧
        _find_data_row df label_text = Int.ofNat i) ∨
      ((∀ i, i < df.rows.length → rowMatches (rowAt df i) label_text = false) ∧
        _find_data_row df label_text = -1)) ∧
    (_find_data_row df label_text = -1 ↔
      ∀ i, i < df.rows.length → rowMatches (rowAt df i) label_text = false) := by
  rcases find_aux_spec label_text df.rows 0 with ⟨h1, h2⟩ | ⟨k, hk, hmk, hb, he⟩
  · have hall : ∀ i, i < df.rows.length → rowMatches (rowAt df i) label_text = false :=
      fun i hi => h2 _ (getD_mem hi)
    exact ⟨rfl, Or.inr ⟨hall, h1⟩, ⟨fun _ => hall, fun _ => h1⟩⟩
  · have hres : _find_data_row df label_text = Int.ofNat k := by
      unfold _find_data_row
      rw [he]
      congr 1
      omega
    refine ⟨rfl, Or.inl ⟨k, ⟨hk, hmk, fun j hj => hb j hj⟩, hres⟩, ?_, ?_⟩
    · intro hneg
      rw [hres] at hneg
      have hnn : (0 : Int) ≤ Int.ofNat k := Int.ofNat_nonneg k
      rw [hneg] at hnn
      exact absurd hnn (by decide)
    · intro hall
      have hfalse := hall k hk
      unfold rowAt at hfalse
      rw [hfalse] at hmk
      exact absurd hmk (by decide)

/-- C4: for every DataFrame in which no row's first cell contains the
requested start label case-insensitively, both block extractors return
the `None` pair without raising, and `_add_bar_chart_slide7` given a
`None` data_dict returns the slide unchanged, adding no shape, so the
remaining blocks keep being processed. -/
theorem c4_missing_label_degrades (df : DataFrame) (start_label : String) (num_rows : Nat)
    (h : ∀ r ∈ df.rows, rowMatches r start_label = false) :
    _extract_data_block_slide7 df start_label num_rows = none ∧
    extract_data_block df start_label num_rows = none ∧
    ∀ (slide : List ChartShape) (categories : Option (List Cell))
      (position : Int × Int × Int × Int) (title : String),
      _add_bar_chart_slide7 slide categories none position title = slide := by
  have hfind : _find_data_row df start_label = -1 := find_aux_none start_label df.rows h 0
  have hfind2 : find_data_row df start_label = -1 := hfind
  refine ⟨?_, ?_, ?_⟩
  · simp [_extract_data_block_slide7, hfind]
  · simp [extract_data_block, hfind2]
  · intro slide categories position title
    rfl

/-- C4 witness: on a concrete frame with no `zzz` row the extractors
return the `None` pair and the chart function leaves a slide alone. -/
theorem c4_witness :
    _extract_data_block_slide7 dfC2 ("zzz") 3 = none ∧
    _add_bar_chart_slide7 [] none none (0, 0, 0, 0) ("INC Created by") = [] :=
  ⟨(c4_missing_label_degrades dfC2 ("zzz") 3 (by decide)).1,
   (c4_missing_label_degrades dfC2 ("zzz") 3 (by decide)).2.2 [] none (0, 0, 0, 0)
     ("INC Created by")⟩

/-- C3 counterexample: in a workbook holding every sheet except
`Created`, the workflow read phase aborts the entire run — `runMain`
yields `none`, populating no slide at all, while the claim promises the
other four slide pipelines would still run. -/
theorem c3_counterexample :
    lookupSheet wbC3 SHEET_NAME_SLIDE_7 = none ∧
    (lookupSheet wbC3 SHEET_NAME_SLIDE_6).isSome = true ∧
    (lookupSheet wbC3 SHEET_NAME_SLIDE_8).isSome = true ∧
    (lookupSheet wbC3 SHEET_NAME_SLIDE_9).isSome = true ∧
    (lookupSheet wbC3 SHEET_NAME_SLIDE_10).isSome = true ∧
    runMain wbC3 = none :=
  ⟨rfl, rfl, rfl, rfl, rfl, rfl⟩

/-- C3 (amended): when any of the five named worksheets is missing from
the workbook, the single try/except around the five reads prints a
fatal error and exits, so the whole run aborts before any slide is
populated: `runMain` yields `none`. -/
theorem c3_amended_missing_sheet_aborts_run (wb : List (String × DataFrame)) (name : String)
    (hmem : name ∈ sheetNames) (hmiss : lookupSheet wb name = none) :
    runMain wb = none := by
  have hmem5 : name = SHEET_NAME_SLIDE_6 ∨ name = SHEET_NAME_SLIDE_7 ∨
      name = SHEET_NAME_SLIDE_8 ∨ name = SHEET_NAME_SLIDE_9 ∨
      name = SHEET_NAME_SLIDE_10 := by
    simpa [sheetNames] using hmem
  unfold runMain
  rcases hmem5 with rfl | rfl | rfl | rfl | rfl
  · rw [hmiss]
    rfl
  · apply option_bind_none
    intro df6
    rw [hmiss]
    rfl
  · apply option_bind_none
    intro df6
    apply option_bind_none
    intro df7
    rw [hmiss]
    rfl
  · apply option_bind_none
    intro df6
    apply option_bind_none
    intro df7
    apply option_bind_none
    intro df8
    rw [hmiss]
    rfl
  · apply option_bind_none
    intro df6
    apply option_bind_none
    intro df7
    apply option_bind_none
    intro df8
    apply option_bind_none
    intro df9
    rw [hmiss]
    rfl

/-- C3 witness: the amended behaviour at the concrete workbook that
lacks only the `Created` sheet. -/
theorem c3_witness : runMain wbC3 = none :=
  c3_amended_missing_sheet_aborts_run wbC3 SHEET_NAME_SLIDE_7 (by decide) rfl

/-- C2 counterexample: on a sheet whose `Type` row carries the headers
A, B, C, D, the slide-9 extractor still selects those four columns and
emits them as series, although none of the header cells contains
"Week" — column selection is positional, not week-based. -/
theorem c2_counterexample :
    _extract_data_block_slide9 dfC2 ("Type") 1 =
      some ([Cell.str ("x")],
        [("A", [Cell.num 1]), ("B", [Cell.num 2]), ("C", [Cell.num 3]), ("D", [Cell.num 4])],
        ["A", "B", "C", "D"]) ∧
    pyIn ("Week") ("A") = false ∧ pyIn ("Week") ("B") = false ∧
    pyIn ("Week") ("C") = false ∧ pyIn ("Week") ("D") = false :=
  ⟨rfl, rfl, rfl, rfl, rfl⟩

/-- C2 (amended): the slide-7 extractor selects exactly week columns —
every emitted series key contains "Week" — while the slide-9 extractor
selects the last four columns other than the first, by position,
labelling the series with the start row's cell texts whether or not
they contain "Week". -/
theorem c2_amended_column_selection :
    (∀ (df : DataFrame) (start_label : String) (num_rows : Nat)
      (cats : List Cell) (dict : List (String × List Cell)),
      _extract_data_block_slide7 df start_label num_rows = some (cats, dict) →
      ∀ p ∈ dict, pyIn ("Week") p.1 = true) ∧
    (∀ (df : DataFrame) (start_label : String) (num_rows s : Nat),
      IsFirstMatch df start_label s →
      _extract_data_block_slide9 df start_label num_rows =
        some ((sliceRows df (s + 1) (s + 1 + num_rows)).map (fun row => cellAt row 0),
          (lastN 4 ((List.range df.cols.length).drop 1)).map
            (fun j => (Cell.pyStr (cellAt (rowAt df s) j),
              (sliceRows df (s + 1) (s + 1 + num_rows)).map (fun row => cellAt row j))),
          (lastN 4 ((List.range df.cols.length).drop 1)).map
            (fun j => Cell.pyStr (cellAt (rowAt df s) j)))) := by
  constructor
  · intro df start_label num_rows cats dict hsucc p hp
    simp only [_extract_data_block_slide7] at hsucc
    split at hsucc
    · exact absurd hsucc (by simp)
    · rw [Option.some.injEq, Prod.mk.injEq] at hsucc
      obtain ⟨hcats, hdict⟩ := hsucc
      rw [← hdict] at hp
      rw [map_zip_self, List.map_map] at hp
      obtain ⟨j, hj, rfl⟩ := List.mem_map.mp hp
      have hjw : j ∈ (List.range df.cols.length).filter
          (fun k => pyIn ("Week") (Cell.pyStr (cellAt
            (ilocRow df ((((_find_data_row df start_label).toNat : Nat) : Int) - 1)) k))) :=
        lastN_subset 4 _ hj
      exact (List.mem_filter.mp hjw).2
  · intro df start_label num_rows s hfirst
    have hfind := find_of_first_match df start_label s hfirst
    simp only [_extract_data_block_slide9, hfind]
    have hne : ¬(Int.ofNat s = -1) := by
      intro hc
      have hnn : (0 : Int) ≤ Int.ofNat s := Int.ofNat_nonneg s
      rw [hc] at hnn
      exact absurd hnn (by decide)
    rw [if_neg hne]
    rw [map_zip_self, List.map_map]
    rfl

/-- C2 witness: the amended slide-9 characterisation instantiated on the
concrete week-less sheet. -/
theorem c2_witness :
    _extract_data_block_slide9 dfC2 ("Type") 1 =
      some ((sliceRows dfC2 (0 + 1) (0 + 1 + 1)).map (fun row => cellAt row 0),
        (lastN 4 ((List.range dfC2.cols.length).drop 1)).map
          (fun j => (Cell.pyStr (cellAt (rowAt dfC2 0) j),
            (sliceRows dfC2 (0 + 1) (0 + 1 + 1)).map (fun row => cellAt row j))),
        (lastN 4 ((List.range dfC2.cols.length).drop 1)).map
          (fun j => Cell.pyStr (cellAt (rowAt dfC2 0) j))) :=
  c2_amended_column_selection.2 dfC2 ("Type") 1 0 (by decide)

/-- C1 counterexample: a DataFrame whose header row 0 holds exactly four
week cells, the first of them in column 0, satisfies the claim's
premise, yet `_extract_slide6_table_data` raises (modelled `none`)
instead of returning the four headers: `set_index` consumes column 0
and the subsequent `data_rows_df[col]` lookup on it is a KeyError. -/
theorem c1_counterexample :
    4 ≤ (slide6AllWeeks dfC1.cols.length (rowAt dfC1 0)).length ∧
    dfC1.WF ∧ 0 + 1 + 1 ≤ dfC1.rows.length ∧
    _extract_slide6_table_data dfC1 ("INC") 0 1 = none :=
  ⟨by decide, by decide, by decide, rfl⟩

/-- C1 (amended): if the header row exists and carries at least four
pairwise-distinct week labels, the first column's header cell is not
among the last four of them, and `num_data_rows` rows follow the header
row, then `_extract_slide6_table_data` succeeds, its headers are
exactly the last four week labels in column order, and each header's
data list is exactly the `num_data_rows` cells of that week column
taken from the rows just below the header row. -/
theorem c1_amended_slide6_extraction (df : DataFrame) (title : String)
    (header_row_idx num_data_rows : Nat) (header_row : List Cell)
    (hhr : df.rows.get? header_row_idx = some header_row)
    (hfour : 4 ≤ (slide6AllWeeks df.cols.length header_row).length)
    (hnodup : (slide6AllWeeks df.cols.length header_row).Nodup)
    (h0 : cellAt header_row 0 ∉ lastN 4 (slide6AllWeeks df.cols.length header_row))
    (hrows : header_row_idx + 1 + num_data_rows ≤ df.rows.length) :
    _extract_slide6_table_data df title header_row_idx num_data_rows =
      some (TableData.mk title
        (lastN 4 (slide6AllWeeks df.cols.length header_row))
        ((sliceRows df (header_row_idx + 1) (header_row_idx + 1 + num_data_rows)).map
          (fun row => cellAt row 0))
        ((lastN 4 (slide6WeekCols df.cols.length header_row)).map
          (fun j => (cellAt header_row j,
            (sliceRows df (header_row_idx + 1) (header_row_idx + 1 + num_data_rows)).map
              (fun row => cellAt row j))))) ∧
    ∀ p ∈ (lastN 4 (slide6WeekCols df.cols.length header_row)).map
        (fun j => (cellAt header_row j,
          (sliceRows df (header_row_idx + 1) (header_row_idx + 1 + num_data_rows)).map
            (fun row => cellAt row j))),
      p.2.length = num_data_rows := by
  have hcols : ¬(df.cols.length = 0) := by
    intro hz
    rw [hz] at hfour
    simp [slide6AllWeeks, slide6WeekCols] at hfour
  have hwc := slide6_week_cols_eq df.cols.length header_row hnodup
  have h0w : ¬(0 ∈ (List.range df.cols.length).filter
      (fun j => decide (cellAt header_row j ∈
        lastN 4 (slide6AllWeeks df.cols.length header_row)))) := by
    rw [hwc]
    intro hmem
    apply h0
    have hmap : cellAt header_row 0 ∈
        (lastN 4 (slide6WeekCols df.cols.length header_row)).map
          (fun j => cellAt header_row j) :=
      List.mem_map_of_mem _ hmem
    have hback : (lastN 4 (slide6WeekCols df.cols.length header_row)).map
        (fun j => cellAt header_row j) = lastN 4 (slide6AllWeeks df.cols.length header_row) := by
      unfold slide6AllWeeks
      exact (lastN_map _ 4 _).symm
    rw [hback] at hmap
    exact hmap
  constructor
  · simp only [_extract_slide6_table_data, hhr]
    rw [if_neg hcols, hwc, if_neg (hwc ▸ h0w)]
  · intro p hp
    obtain ⟨j, hj, rfl⟩ := List.mem_map.mp hp
    simp only [List.length_map, length_sliceRows]
    have harith : header_row_idx + 1 + num_data_rows - (header_row_idx + 1) = num_data_rows := by
      omega
    rw [harith]
    exact Nat.min_eq_left (by omega)

/-- C1 witness: the amended extraction at a concrete well-formed sheet
with a label column followed by four distinct week columns. -/
theorem c1_witness :
    _extract_slide6_table_data dfW6 ("INC") 0 1 =
      some (TableData.mk ("INC")
        (lastN 4 (slide6AllWeeks dfW6.cols.length (rowAt dfW6 0)))
        ((sliceRows dfW6 (0 + 1) (0 + 1 + 1)).map (fun row => cellAt row 0))
        ((lastN 4 (slide6WeekCols dfW6.cols.length (rowAt dfW6 0))).map
          (fun j => (cellAt (rowAt dfW6 0) j,
            (sliceRows dfW6 (0 + 1) (0 + 1 + 1)).map (fun row => cellAt row j))))) :=
  (c1_amended_slide6_extraction dfW6 ("INC") 0 1 (rowAt dfW6 0) rfl (by decide) (by decide)
    (by decide) (by decide)).1

theorem shapeFrame_refl (a : PShape) : shapeFrame a a := ⟨rfl, rfl, fun _ => rfl⟩

theorem shapeFrame_trans {a b c : PShape} (h1 : shapeFrame a b) (h2 : shapeFrame b c) :
    shapeFrame a c := by
  obtain ⟨e1, e2, e3⟩ := h1
  obtain ⟨f1, f2, f3⟩ := h2
  refine ⟨f1.trans e1, f2.trans e2, fun hn => ?_⟩
  have hb : b.hasChart = false := e1.trans hn
  exact (f3 hb).trans (e3 hn)

theorem forall2_refl_of {α : Type} {R : α → α → Prop} (h : ∀ a, R a a) :
    ∀ l, List.Forall₂ R l l := by
  intro l
  induction l with
  | nil => exact List.Forall₂.nil
  | cons x xs ih => exact List.Forall₂.cons (h x) ih

theorem forall2_trans_of {α : Type} {R : α → α → Prop}
    (ht : ∀ a b c : α, R a b → R b c → R a c) :
    ∀ {l1 l2 l3 : List α}, List.Forall₂ R l1 l2 → List.Forall₂ R l2 l3 →
      List.Forall₂ R l1 l3 := by
  intro l1 l2 l3 h12
  induction h12 generalizing l3 with
  | nil =>
    intro h23
    cases h23
    exact List.Forall₂.nil
  | cons h t ih =>
    intro h23
    cases h23 with
    | cons h2 t2 => exact List.Forall₂.cons (ht _ _ _ h h2) (ih t2)

theorem applyStyle_frame (style_id : Int) :
    ∀ (sl : List PShape), List.Forall₂ shapeFrame sl (applyStyleToSlide style_id sl) := by
  intro sl
  induction sl with
  | nil => exact List.Forall₂.nil
  | cons sh t ih =>
    simp only [applyStyleToSlide, List.map_cons]
    refine List.Forall₂.cons ?_ ih
    by_cases h : sh.hasChart = true
    · rw [if_pos h]
      exact ⟨rfl, rfl, fun hn => absurd (hn ▸ h) (by decide)⟩
    · rw [if_neg h]
      exact shapeFrame_refl sh

theorem forall2_setAt {R : List PShape → List PShape → Prop} (hrefl : ∀ a, R a a) :
    ∀ (l : List (List PShape)) (i : Nat) (v : List PShape),
      R (l.getD i []) v → List.Forall₂ R l (setAt l i v) := by
  intro l
  induction l with
  | nil => intro i v _; exact List.Forall₂.nil
  | cons x xs ih =>
    intro i v hv
    cases i with
    | zero =>
      exact List.Forall₂.cons (by simpa using hv) (forall2_refl_of hrefl xs)
    | succ n =>
      exact List.Forall₂.cons (hrefl x) (ih n v (by simpa using hv))

theorem apply_step_frame (p : List (List PShape)) (si : Nat × Int) :
    List.Forall₂ (List.Forall₂ shapeFrame) p
      (if p.length < si.1 + 1 then p
       else setAt p si.1 (applyStyleToSlide si.2 (p.getD si.1 []))) := by
  by_cases h : p.length < si.1 + 1
  · rw [if_pos h]
    exact forall2_refl_of (forall2_refl_of shapeFrame_refl) p
  · rw [if_neg h]
    exact forall2_setAt (forall2_refl_of shapeFrame_refl) p si.1 _ (applyStyle_frame si.2 _)

theorem apply_chart_styles_frame (styles : List (Nat × Int)) :
    ∀ (pres : List (List PShape)),
      List.Forall₂ (List.Forall₂ shapeFrame) pres (apply_chart_styles pres styles) := by
  induction styles with
  | nil => intro pres; exact forall2_refl_of (forall2_refl_of shapeFrame_refl) pres
  | cons si rest ih =>
    intro pres
    have hstep := apply_step_frame pres si
    have hrest := ih (if pres.length < si.1 + 1 then pres
      else setAt pres si.1 (applyStyleToSlide si.2 (pres.getD si.1 [])))
    have hfold : apply_chart_styles pres (si :: rest) =
        apply_chart_styles (if pres.length < si.1 + 1 then pres
          else setAt pres si.1 (applyStyleToSlide si.2 (pres.getD si.1 []))) rest := rfl
    rw [hfold]
    exact @forall2_trans_of _ (List.Forall₂ shapeFrame)
      (fun _ _ _ h1 h2 => @forall2_trans_of _ shapeFrame
        (fun _ _ _ g1 g2 => shapeFrame_trans g1 g2) _ _ _ h1 h2) _ _ _ hstep hrest

theorem getD_setAt_ne : ∀ (l : List (List PShape)) (i j : Nat) (v : List PShape), i ≠ j →
    (setAt l i v).getD j [] = l.getD j [] := by
  intro l
  induction l with
  | nil =>
    intro i j v _
    cases i <;> rfl
  | cons x xs ih =>
    intro i j v hne
    cases i with
    | zero =>
      cases j with
      | zero => exact absurd rfl hne
      | succ m => simp [setAt]
    | succ n =>
      cases j with
      | zero => simp [setAt]
      | succ m =>
        simp only [setAt, List.getD_cons_succ]
        exact ih n m v (by omega)

theorem apply_unchanged (styles : List (Nat × Int)) :
    ∀ (pres : List (List PShape)) (i : Nat), i ∉ styles.map Prod.fst →
      (apply_chart_styles pres styles).getD i [] = pres.getD i [] := by
  induction styles with
  | nil => intro pres i _; rfl
  | cons si rest ih =>
    intro pres i hi
    have hi1 : i ∉ rest.map Prod.fst := by
      intro h
      exact hi (by rw [List.map_cons]; exact List.mem_cons_of_mem _ h)
    have hine : si.1 ≠ i := by
      intro he
      exact hi (by rw [List.map_cons, he]; exact List.mem_cons_self i _)
    have hfold : apply_chart_styles pres (si :: rest) =
        apply_chart_styles (if pres.length < si.1 + 1 then pres
          else setAt pres si.1 (applyStyleToSlide si.2 (pres.getD si.1 []))) rest := rfl
    rw [hfold, ih _ i hi1]
    by_cases h : pres.length < si.1 + 1
    · rw [if_pos h]
    · rw [if_neg h]
      exact getD_setAt_ne pres si.1 i _ hine

/-- C6: the styling pass only ever changes the ChartStyle field of
chart shapes, and only on the slides listed in `styles_to_apply`: every
slide keeps its length and every shape keeps its chart flag and payload
(chartless shapes also keep their style), unlisted slides are returned
verbatim, and after the pass the workflow's file phase removes the
temporary presentation so of the two written paths only the final
output remains. -/
theorem c6_chart_style_frame_and_temp_cleanup (pres : List (List PShape))
    (styles_to_apply : List (Nat × Int)) :
    List.Forall₂ (List.Forall₂ shapeFrame) pres (apply_chart_styles pres styles_to_apply) ∧
    (∀ i, i ∉ styles_to_apply.map Prod.fst →
      (apply_chart_styles pres styles_to_apply).getD i [] = pres.getD i []) ∧
    ∀ fs : List String,
      temp_output_path ∉ mainFilePhase fs ∧ FINAL_OUTPUT_PPTX_PATH ∈ mainFilePhase fs := by
  refine ⟨apply_chart_styles_frame styles_to_apply pres,
    fun i hi => apply_unchanged styles_to_apply pres i hi, ?_⟩
  intro fs
  constructor
  · unfold mainFilePhase fsRemove
    intro hmem
    have hkeep := (List.mem_filter.mp hmem).2
    simp at hkeep
  · unfold mainFilePhase fsRemove fsAdd
    apply List.mem_filter.mpr
    constructor
    · by_cases h : FINAL_OUTPUT_PPTX_PATH ∈
        (if temp_output_path ∈ fs then fs else fs ++ [temp_output_path])
      · rw [if_pos h]
        exact h
      · rw [if_neg h]
        exact List.mem_append_right _ (List.mem_singleton.mpr rfl)
    · decide

/-- C6 witness: on a concrete two-slide presentation styled only at
slide 0, slide 1 is returned verbatim, and on the empty file system the
temporary path is absent while the final output is present. -/
theorem c6_witness :
    (apply_chart_styles presW stylesW).getD 1 [] = presW.getD 1 [] ∧
    (temp_output_path ∉ mainFilePhase [] ∧ FINAL_OUTPUT_PPTX_PATH ∈ mainFilePhase []) :=
  ⟨(c6_chart_style_frame_and_temp_cleanup presW stylesW).2.1 1 (by decide),
   (c6_chart_style_frame_and_temp_cleanup presW stylesW).2.2 []⟩

/-- C9: the four slide extractors are deterministic — equal inputs give
equal results — and, for a well-formed DataFrame, every value of every
returned series list is a cell value occurring in the input frame. -/
theorem c9_extraction_deterministic_copies (df : DataFrame) (hwf : df.WF) :
    (∀ (title : String) (hIdx n : Nat),
      _extract_slide6_table_data df title hIdx n = _extract_slide6_table_data df title hIdx n) ∧
    (∀ (label : String) (n : Nat),
      _extract_data_block_slide7 df label n = _extract_data_block_slide7 df label n) ∧
    (∀ (ls : List String) (wl : String),
      _extract_pending_data_slide8 df ls wl = _extract_pending_data_slide8 df ls wl) ∧
    (∀ (label : String) (n : Nat),
      _extract_data_block_slide9 df label n = _extract_data_block_slide9 df label n) ∧
    (∀ (title : String) (hIdx n : Nat) (td : TableData),
      _extract_slide6_table_data df title hIdx n = some td →
      ∀ p ∈ td.data, ∀ v ∈ p.2, CellOf df v) ∧
    (∀ (label : String) (n : Nat) (cats : List Cell) (dict : List (String × List Cell)),
      _extract_data_block_slide7 df label n = some (cats, dict) →
      ∀ p ∈ dict, ∀ v ∈ p.2, CellOf df v) ∧
    (∀ (ls : List String) (wl : String) (cats : List String)
      (dict : List (String × List Cell)),
      _extract_pending_data_slide8 df ls wl = Except.ok (some (cats, dict)) →
      ∀ p ∈ dict, ∀ v ∈ p.2, CellOf df v) ∧
    (∀ (label : String) (n : Nat) (cats : List Cell) (dict : List (String × List Cell))
      (hdrs : List String),
      _extract_data_block_slide9 df label n = some (cats, dict, hdrs) →
      ∀ p ∈ dict, ∀ v ∈ p.2, CellOf df v) := by
  refine ⟨fun _ _ _ => rfl, fun _ _ => rfl, fun _ _ => rfl, fun _ _ => rfl, ?_, ?_, ?_, ?_⟩
  · intro title hIdx n td hsucc p hp v hv
    simp only [_extract_slide6_table_data] at hsucc
    split at hsucc
    · exact absurd hsucc (by simp)
    · split at hsucc
      · exact absurd hsucc (by simp)
      · split at hsucc
        · exact absurd hsucc (by simp)
        · rw [Option.some.injEq] at hsucc
          subst hsucc
          obtain ⟨j, hj, rfl⟩ := List.mem_map.mp hp
          obtain ⟨row, hrow, rfl⟩ := List.mem_map.mp hv
          refine ⟨row, sliceRows_subset _ _ _ hrow, ?_⟩
          have hjn : j < df.cols.length := List.mem_range.mp (List.mem_filter.mp hj).1
          have hlen := hwf row (sliceRows_subset _ _ _ hrow)
          exact cellAt_mem (by omega)
  · intro label n cats dict hsucc p hp v hv
    simp only [_extract_data_block_slide7] at hsucc
    split at hsucc
    · exact absurd hsucc (by simp)
    · rw [Option.some.injEq, Prod.mk.injEq] at hsucc
      obtain ⟨hcats, hdict⟩ := hsucc
      rw [← hdict] at hp
      rw [map_zip_self, List.map_map] at hp
      obtain ⟨j, hj, rfl⟩ := List.mem_map.mp hp
      simp only [Function.comp_apply] at hv
      obtain ⟨row, hrow, rfl⟩ := List.mem_map.mp hv
      refine ⟨row, sliceRows_subset _ _ _ hrow, ?_⟩
      have hjr := lastN_subset 4 _ hj
      have hjn : j < df.cols.length := List.mem_range.mp (List.mem_filter.mp hjr).1
      have hlen := hwf row (sliceRows_subset _ _ _ hrow)
      exact cellAt_mem (by omega)
  · intro ls wl cats dict hsucc p hp v hv
    simp only [_extract_pending_data_slide8] at hsucc
    split at hsucc
    · exact absurd hsucc (by simp)
    · split at hsucc
      · rw [Except.ok.injEq, Option.some.injEq, Prod.mk.injEq] at hsucc
        obtain ⟨hcats, hdict⟩ := hsucc
        rw [← hdict] at hp
        obtain ⟨l, hl, rfl⟩ := List.mem_map.mp hp
        obtain ⟨row, hrow, rfl⟩ := List.mem_map.mp hv
        refine ⟨row, lastN_subset 4 _ hrow, ?_⟩
        have hlcols : l ∈ df.cols := of_decide_eq_true (List.mem_filter.mp hl).2
        have hidx : df.cols.findIdx (fun c => c == l) < df.cols.length :=
          List.findIdx_lt_length_of_exists ⟨l, hlcols, beq_self_eq_true l⟩
        have hlen := hwf row (lastN_subset 4 _ hrow)
        exact cellAt_mem (by omega)
      · exact absurd hsucc (by simp)
  · intro label n cats dict hdrs hsucc p hp v hv
    simp only [_extract_data_block_slide9] at hsucc
    split at hsucc
    · exact absurd hsucc (by simp)
    · rw [Option.some.injEq, Prod.mk.injEq] at hsucc
      obtain ⟨hcats, hrest⟩ := hsucc
      rw [Prod.mk.injEq] at hrest
      obtain ⟨hdict, hhdrs⟩ := hrest
      rw [← hdict] at hp
      rw [map_zip_self, List.map_map] at hp
      obtain ⟨j, hj, rfl⟩ := List.mem_map.mp hp
      simp only [Function.comp_apply] at hv
      obtain ⟨row, hrow, rfl⟩ := List.mem_map.mp hv
      refine ⟨row, sliceRows_subset _ _ _ hrow, ?_⟩
      have hjr := lastN_subset 4 _ hj
      have hjn : j < df.cols.length := List.mem_range.mp (List.drop_subset _ _ hjr)
      have hlen := hwf row (sliceRows_subset _ _ _ hrow)
      exact cellAt_mem (by omega)

/-- C9 witness: determinism and cell provenance instantiated on a
concrete sheet — the extracted series value 7 is a cell of the
input. -/
theorem c9_witness :
    _extract_slide6_table_data dfW7 ("INC") 0 1 = _extract_slide6_table_data dfW7 ("INC") 0 1 ∧
    CellOf dfW7 (Cell.num 7) :=
  ⟨(c9_extraction_deterministic_copies dfW7 (by decide)).1 ("INC") 0 1,
   (c9_extraction_deterministic_copies dfW7 (by decide)).2.2.2.2.2.1 ("Tools Created") 1
     [Cell.str ("Tools Created x")] [("Week 1", [Cell.num 7])] rfl
     ("Week 1", [Cell.num 7]) (by decide) (Cell.num 7) (by decide)⟩

/-- C10: whenever an extraction succeeds, every series list of the
returned data_dict has the same length as the returned categories (for
slide 6, the row labels), so every downstream table-cell write and
chart series indexes within bounds. -/
theorem c10_series_lengths_match_categories (df : DataFrame) :
    (∀ (title : String) (hIdx n : Nat) (td : TableData),
      _extract_slide6_table_data df title hIdx n = some td →
      ∀ p ∈ td.data, p.2.length = td.row_labels.length) ∧
    (∀ (label : String) (n : Nat) (cats : List Cell) (dict : List (String × List Cell)),
      _extract_data_block_slide7 df label n = some (cats, dict) →
      ∀ p ∈ dict, p.2.length = cats.length) ∧
    (∀ (ls : List String) (wl : String) (cats : List String)
      (dict : List (String × List Cell)),
      _extract_pending_data_slide8 df ls wl = Except.ok (some (cats, dict)) →
      ∀ p ∈ dict, p.2.length = cats.length) ∧
    (∀ (label : String) (n : Nat) (cats : List Cell) (dict : List (String × List Cell))
      (hdrs : List String),
      _extract_data_block_slide9 df label n = some (cats, dict, hdrs) →
      ∀ p ∈ dict, p.2.length = cats.length) := by
  refine ⟨?_, ?_, ?_, ?_⟩
  · intro title hIdx n td hsucc p hp
    simp only [_extract_slide6_table_data] at hsucc
    split at hsucc
    · exact absurd hsucc (by simp)
    · split at hsucc
      · exact absurd hsucc (by simp)
      · split at hsucc
        · exact absurd hsucc (by simp)
        · rw [Option.some.injEq] at hsucc
          subst hsucc
          obtain ⟨j, hj, rfl⟩ := List.mem_map.mp hp
          simp [List.length_map]
  · intro label n cats dict hsucc p hp
    simp only [_extract_data_block_slide7] at hsucc
    split at hsucc
    · exact absurd hsucc (by simp)
    · rw [Option.some.injEq, Prod.mk.injEq] at hsucc
      obtain ⟨hcats, hdict⟩ := hsucc
      rw [← hdict] at hp
      rw [← hcats]
      rw [map_zip_self, List.map_map] at hp
      obtain ⟨j, hj, rfl⟩ := List.mem_map.mp hp
      simp [List.length_map]
  · intro ls wl cats dict hsucc p hp
    simp only [_extract_pending_data_slide8] at hsucc
    split at hsucc
    · exact absurd hsucc (by simp)
    · split at hsucc
      · rw [Except.ok.injEq, Option.some.injEq, Prod.mk.injEq] at hsucc
        obtain ⟨hcats, hdict⟩ := hsucc
        rw [← hdict] at hp
        rw [← hcats]
        obtain ⟨l, hl, rfl⟩ := List.mem_map.mp hp
        simp [List.length_map]
      · exact absurd hsucc (by simp)
  · intro label n cats dict hdrs hsucc p hp
    simp only [_extract_data_block_slide9] at hsucc
    split at hsucc
    · exact absurd hsucc (by simp)
    · rw [Option.some.injEq, Prod.mk.injEq] at hsucc
      obtain ⟨hcats, hrest⟩ := hsucc
      rw [Prod.mk.injEq] at hrest
      obtain ⟨hdict, hhdrs⟩ := hrest
      rw [← hdict] at hp
      rw [← hcats]
      rw [map_zip_self, List.map_map] at hp
      obtain ⟨j, hj, rfl⟩ := List.mem_map.mp hp
      simp [List.length_map]

/-- C10 witness: on a concrete successful slide-7 extraction the single
series list has the same length as the categories list. -/
theorem c10_witness :
    (("Week 1", [Cell.num 7]) : String × List Cell).2.length =
      ([Cell.str ("Tools Created x")] : List Cell).length :=
  (c10_series_lengths_match_categories dfW7).2.1 ("Tools Created") 1
    [Cell.str ("Tools Created x")] [("Week 1", [Cell.num 7])] rfl
    ("Week 1", [Cell.num 7]) (by decide)

/-- C5: the slide-10 block is bounded by its sentinel rows. If `s` is
the first row whose stripped first cell equals the title, `e` the first
row at or after `s` whose first cell equals "Grand Total", `h` the
first row at or after `s` whose last four cells mention "Week", with
`h` before `e`, and the `int()` conversions of the rows in between
succeed, then the extracted table's headers are the title followed by
the stripped last four cells of row `h`, and its data rows are exactly
the rows `h+1` through `e` inclusive whose first cell is non-empty
after stripping; for a target title the table is emitted by
`_extract_data_for_slide10`. -/
theorem c5_slide10_sentinel_bounds (df : DataFrame) (table_title : String) (s e h : Nat)
    (hs : IsFirstFrom (slide10Pre df).rows 0 s (titleRowP table_title))
    (he : IsFirstFrom (slide10Pre df).rows s e grandTotalP)
    (hh : IsFirstFrom (slide10Pre df).rows s h weekHeaderP)
    (hhe : h < e)
    (hconv : ∀ r ∈ ((slide10Pre df).rows.drop (h + 1)).take (e - h),
      (rowTitle10 r == "") = false → (intLast4 r).isSome = true) :
    extractTable10 df table_title =
      some (Table10.mk table_title
        (table_title :: (lastN 4 (rowAt (slide10Pre df) h)).map
          (fun c => pyStrip (Cell.pyStr c)))
        (((((slide10Pre df).rows.drop (h + 1)).take (e - h)).filter
            (fun r => !(rowTitle10 r == ""))).map
          (fun r => (rowTitle10 r, (intLast4 r).getD [])))) ∧
    (table_title ∈ target_table_titles →
      Table10.mk table_title
        (table_title :: (lastN 4 (rowAt (slide10Pre df) h)).map
          (fun c => pyStrip (Cell.pyStr c)))
        (((((slide10Pre df).rows.drop (h + 1)).take (e - h)).filter
            (fun r => !(rowTitle10 r == ""))).map
          (fun r => (rowTitle10 r, (intLast4 r).getD []))) ∈
        _extract_data_for_slide10 df) := by
  have hfs := findIdxFrom_first _ 0 s _ hs
  have hfe := findIdxFrom_first _ s e _ he
  have hfh := findIdxFrom_first _ s h _ hh
  have hbuild := buildRows10_spec _ hconv
  have hmain : extractTable10 df table_title =
      some (Table10.mk table_title
        (table_title :: (lastN 4 (rowAt (slide10Pre df) h)).map
          (fun c => pyStrip (Cell.pyStr c)))
        (((((slide10Pre df).rows.drop (h + 1)).take (e - h)).filter
            (fun r => !(rowTitle10 r == ""))).map
          (fun r => (rowTitle10 r, (intLast4 r).getD [])))) := by
    simp only [extractTable10, hfs, hfe, hfh]
    rw [if_pos hhe, hbuild]
  exact ⟨hmain, fun hm => List.mem_filterMap.mpr ⟨table_title, hm, hmain⟩⟩

/-- C5 witness: on a concrete Business Services sheet the block bounded
by the title row, the header row and the Grand Total row is extracted,
skipping the empty-titled row. -/
theorem c5_witness :
    extractTable10 dfW10 ("Business Service - INC") =
      some (Table10.mk ("Business Service - INC")
        ("Business Service - INC" :: (lastN 4 (rowAt (slide10Pre dfW10) 1)).map
          (fun c => pyStrip (Cell.pyStr c)))
        (((((slide10Pre dfW10).rows.drop (1 + 1)).take (4 - 1)).filter
            (fun r => !(rowTitle10 r == ""))).map
          (fun r => (rowTitle10 r, (intLast4 r).getD [])))) :=
  (c5_slide10_sentinel_bounds dfW10 ("Business Service - INC") 0 4 1 (by decide) (by decide)
    (by decide) (by decide) (by decide)).1
